import Mathlib

/-!
Shallow embedding of the MAF-Agents repository (two Python CLI scripts:
`src/AgentId/src/agent_manager.py` and
`src/Foundry-IaC-Agent/src/agent_manager.py`) and proofs of the frozen
claims about it.

Python strings are modelled as `List Char` (`PyStr`); the remote
agent-hosting service is modelled by scripting its answers (a list of
vector-store statuses for the readiness poll, booleans for whether a
remote deletion call fails, a list of input lines for the chat loop);
`sys.exit(1)` / raised exceptions that terminate the process are
modelled with `Except`.
-/

namespace MAFAgents

/-- A Python string, modelled as its list of characters. -/
abbrev PyStr := List Char

/-- Python `s.lower()`. -/
def pyLower (s : PyStr) : PyStr := s.map Char.toLower

/-- Python `s.strip()`: remove leading and trailing whitespace. -/
def pyStrip (s : PyStr) : PyStr :=
  ((s.dropWhile Char.isWhitespace).reverse.dropWhile Char.isWhitespace).reverse

/-- Python `s.rsplit(":", 1)` for a string known to contain a colon:
the part before the last colon, and the part after it. -/
def pyRsplitColon1 (s : PyStr) : PyStr × PyStr :=
  (((s.reverse.dropWhile (· != ':')).tail).reverse,
   (s.reverse.takeWhile (· != ':')).reverse)

/-- Vector-store processing status (spec §3: status ∈
in_progress / completed / failed; the source compares the retrieved
status against the strings "completed" and "failed" and keeps polling
otherwise). -/
inductive VSStatus where
  | inProgress
  | completed
  | failed
deriving DecidableEq, Repr

/-- Outcome of the readiness-polling loop, with the number of
`vector_stores.retrieve` calls (polls) it issued. -/
inductive PollResult where
  | ready (polls : Nat)
  | provisioningError (polls : Nat)
deriving DecidableEq, Repr

/-- The readiness wait of `create_agent_with_vector_store`
(Foundry variant, lines 78-85):
`while True: vs_status = retrieve(id); if status == "completed": break;
elif status == "failed": raise; sleep(1)`.
The remote service is scripted as the list of statuses successive
retrieve calls return; `none` models the loop never terminating
(script exhausted without a terminal status). -/
def awaitReady : List VSStatus → Option PollResult
  | [] => none
  | s :: rest =>
    if s = VSStatus.completed then some (PollResult.ready 1)
    else if s = VSStatus.failed then some (PollResult.provisioningError 1)
    else
      match awaitReady rest with
      | some (PollResult.ready n) => some (PollResult.ready (n + 1))
      | some (PollResult.provisioningError n) => some (PollResult.provisioningError (n + 1))
      | none => none

/-- Remote calls issued by the Foundry `create` provisioning chain, in
order: `files.create` (line 61), `vector_stores.create` (line 69),
`vector_stores.retrieve` (line 79, once per poll), and
`agents.create_version` (line 103). -/
inductive ProvEvent where
  | uploadFile
  | createVectorStore
  | retrieveStatus (s : VSStatus)
  | createAgent
deriving DecidableEq, Repr

/-- How a run of the provisioning chain ends. -/
inductive ChainResult where
  | ok
  | provisioningError
  | hang
deriving DecidableEq, Repr

/-- The retrieve events of the polling loop together with how the loop
ends, for a scripted status sequence. -/
def pollTrace : List VSStatus → List ProvEvent × ChainResult
  | [] => ([], ChainResult.hang)
  | s :: rest =>
    if s = VSStatus.completed then ([ProvEvent.retrieveStatus s], ChainResult.ok)
    else if s = VSStatus.failed then ([ProvEvent.retrieveStatus s], ChainResult.provisioningError)
    else
      let (evs, r) := pollTrace rest
      (ProvEvent.retrieveStatus s :: evs, r)

/-- Remote-call trace of `create_agent_with_vector_store` (Foundry,
lines 35-117): upload the document, create the vector store, poll until
a terminal status, and only then create the versioned agent; the raise
on a `failed` status (line 84) aborts before `agents.create_version`. -/
def createChainEvents (script : List VSStatus) : List ProvEvent × ChainResult :=
  let (pollEvs, r) := pollTrace script
  match r with
  | ChainResult.ok =>
    (ProvEvent.uploadFile :: ProvEvent.createVectorStore :: (pollEvs ++ [ProvEvent.createAgent]),
     ChainResult.ok)
  | r => (ProvEvent.uploadFile :: ProvEvent.createVectorStore :: pollEvs, r)

/-- Result of a full Foundry `create` run: the three identifiers it
returns on success (line 117), abort on a failed vector store, or a
never-ending poll. The remote-generated identifiers are parameters. -/
inductive CreateOutcome where
  | ok (agentId vsId fileId : PyStr)
  | provisioningError
  | hang
deriving DecidableEq, Repr

/-- Outcome of `create_agent_with_vector_store` (Foundry, lines 35-117)
for scripted poll statuses and remote-generated identifiers. -/
def foundryCreateRun (fileId vsId agentId : PyStr) (script : List VSStatus) : CreateOutcome :=
  match awaitReady script with
  | some (PollResult.ready _) => CreateOutcome.ok agentId vsId fileId
  | some (PollResult.provisioningError _) => CreateOutcome.provisioningError
  | none => CreateOutcome.hang

/-- The agent name hardcoded by the Foundry create (line 104). -/
def foundryAgentName : PyStr := "IaCDocumentAgent".data

/-- The identifiers the Foundry create prints in machine-readable
`KEY: value` form (lines 65, 73, 108). -/
def foundryCreatePrinted (fileId vsId agentId : PyStr) : List (String × PyStr) :=
  [("FILE_ID", fileId), ("VECTORSTORE_ID", vsId), ("AGENT_ID", agentId)]

/-- Modelled from the spec: the azd deployment hook that persists the
create-time identifiers is not under src/ (the Foundry script only
prints and returns them, lines 108-117); per the spec ("writes all four
identifiers to the State Store", persisted-state keys `AGENT_ID`,
`AGENT_NAME`, `VECTORSTORE_ID`, `FILE_ID`), it writes all four keys to
the azd environment. -/
def azdPersistHook (agentId agentName vsId fileId : PyStr) : List (String × PyStr) :=
  [("AGENT_ID", agentId), ("AGENT_NAME", agentName),
   ("VECTORSTORE_ID", vsId), ("FILE_ID", fileId)]

/-- The State Store contents after a Foundry `create` run: on success
the hook persists the printed identifiers under all four keys; an
aborted or hung run persists nothing. -/
def foundryStateAfterCreate : CreateOutcome → Option (List (String × PyStr))
  | CreateOutcome.ok agentId vsId fileId =>
    some (azdPersistHook agentId foundryAgentName vsId fileId)
  | _ => none

/-- The State Store writes performed by the AgentId variant's
`create_agent` (lines 127-128): `azd env set AGENT_ID ...` and
`azd env set AGENT_NAME ...` (this variant provisions no vector store
or file). -/
def agentIdCreateWrites (agentId agentName : PyStr) : List (String × PyStr) :=
  [("AGENT_ID", agentId), ("AGENT_NAME", agentName)]

/-- A remote deletion call failing (any exception from the service). -/
inductive RemoteError where
  | remoteError
deriving DecidableEq, Repr

/-- Which of the three remote deletion calls of teardown fail. -/
structure DeleteFailures where
  agent : Bool
  vectorStore : Bool
  file : Bool
deriving DecidableEq, Repr

/-- Console-observable outcome of each teardown step: a successful
deletion print, or the `Warning: Could not delete ...` print of the
corresponding `except` block. -/
inductive TeardownEvent where
  | deletedAgent (name version : PyStr)
  | warnAgent
  | deletedVectorStore (id : PyStr)
  | warnVectorStore
  | deletedFile (id : PyStr)
  | warnFile
deriving DecidableEq, Repr

/-- A scripted remote call: errors exactly when told to fail. -/
def remoteCall (fails : Bool) : Except RemoteError Unit :=
  if fails then Except.error RemoteError.remoteError else Except.ok ()

/-- A `try: ...; except Exception as e: print(warning)` block around one
remote deletion: the exception never escapes, it is downgraded to a
warning event. -/
def tryDeleteStep (call : Except RemoteError Unit) (onOk onWarn : TeardownEvent) :
    List TeardownEvent :=
  match call with
  | Except.ok _ => [onOk]
  | Except.error _ => [onWarn]

/-- `delete_agent_and_resources` (Foundry, lines 120-170): read the
three identifiers from the environment; attempt the three deletions
independently, each in its own try/except; absent identifiers are
skipped. The result type `List TeardownEvent` (no `Except`) reflects
that every remote call sits inside a try/except, so no exception
escapes the function. -/
def deleteAgentAndResources (agent_id vectorstore_id file_id : Option PyStr)
    (fails : DeleteFailures) : List TeardownEvent :=
  (match agent_id with
   | none => []
   | some aid =>
     let nv := if ':' ∈ aid then pyRsplitColon1 aid else (aid, ['1'])
     tryDeleteStep (remoteCall fails.agent) (TeardownEvent.deletedAgent nv.1 nv.2)
       TeardownEvent.warnAgent) ++
  (match vectorstore_id with
   | none => []
   | some vid =>
     tryDeleteStep (remoteCall fails.vectorStore) (TeardownEvent.deletedVectorStore vid)
       TeardownEvent.warnVectorStore) ++
  (match file_id with
   | none => []
   | some fid =>
     tryDeleteStep (remoteCall fails.file) (TeardownEvent.deletedFile fid)
       TeardownEvent.warnFile)

/-- Whether a teardown event is an attempt (successful or warned) at
the agent deletion. -/
def attemptsAgent : TeardownEvent → Bool
  | TeardownEvent.deletedAgent _ _ => true
  | TeardownEvent.warnAgent => true
  | _ => false

/-- Whether a teardown event is an attempt at the vector-store
deletion. -/
def attemptsVectorStore : TeardownEvent → Bool
  | TeardownEvent.deletedVectorStore _ => true
  | TeardownEvent.warnVectorStore => true
  | _ => false

/-- Whether a teardown event is an attempt at the file deletion. -/
def attemptsFile : TeardownEvent → Bool
  | TeardownEvent.deletedFile _ => true
  | TeardownEvent.warnFile => true
  | _ => false

/-- Name/version pair targeted by the Foundry delete (lines 139-143):
`agent_id.rsplit(":", 1)` when the id contains a colon, else the id
itself with version "1". -/
def foundryDeleteTarget (agent_id : PyStr) : PyStr × PyStr :=
  if ':' ∈ agent_id then pyRsplitColon1 agent_id else (agent_id, ['1'])

/-- Default agent name of the AgentId variant (lines 105 and 142):
`os.environ.get("AGENT_NAME", "OneDrive-Agent")`. -/
def agentIdAgentName (env : Option PyStr) : PyStr := env.getD "OneDrive-Agent".data

/-- Name/version pair targeted by the AgentId variant's `delete_agent`
(lines 152-159): `agent_id.rsplit(":", 1)` when the id contains a
colon; otherwise the FALLBACK deletes by the `AGENT_NAME` environment
value with version "1", not by the id. -/
def agentIdDeleteTarget (agent_id agent_name : PyStr) : PyStr × PyStr :=
  if ':' ∈ agent_id then pyRsplitColon1 agent_id else (agent_name, ['1'])

/-- Agent name used by the chat session (Foundry, line 184):
`agent_id.split(":")[0] if ":" in agent_id else agent_id` — the text
before the FIRST colon. -/
def chatAgentName (agent_id : PyStr) : PyStr :=
  if ':' ∈ agent_id then agent_id.takeWhile (· != ':') else agent_id

/-- Remote calls made by the chat session, in order of occurrence. -/
inductive ChatEvent where
  | createConversation
  | appendUserItem (content : PyStr)
  | requestResponse
  | deleteConversationAttempt
deriving DecidableEq, Repr

/-- The exit tokens of the chat loop (line 201), compared against the
lowercased stripped input. -/
def exitTokens : List PyStr := ["quit".data, "exit".data, "q".data]

/-- The bare `try: conversations.delete(...) except: pass` of the exit
branch (lines 203-206): whatever the remote delete call does, the
session continues to its goodbye/termination. -/
def suppressDeleteError (call : Except RemoteError Unit) : Unit :=
  match call with
  | Except.ok _ => ()
  | Except.error _ => ()

/-- The chat loop of `chat_with_agent` (Foundry, lines 199-226), over a
scripted list of input lines: exit tokens (checked first) delete the
conversation (errors suppressed) and terminate; stripped-blank input
continues without any remote call; otherwise one `items.create` and
one `responses.create` round-trip. `none` models the loop blocking
forever on input (script exhausted without an exit token). -/
def chatLoop (deleteFails : Bool) : List PyStr → Option (List ChatEvent)
  | [] => none
  | line :: rest =>
    let input := pyStrip line
    if pyLower input ∈ exitTokens then
      let _u := suppressDeleteError (remoteCall deleteFails)
      some [ChatEvent.deleteConversationAttempt]
    else if input = [] then
      chatLoop deleteFails rest
    else
      (chatLoop deleteFails rest).map
        (fun evs => ChatEvent.appendUserItem input :: ChatEvent.requestResponse :: evs)

/-- `chat_with_agent` (Foundry, lines 193-226): one conversation is
created up front (line 194), then the loop runs. -/
def chatWithAgent (deleteFails : Bool) (script : List PyStr) : Option (List ChatEvent) :=
  (chatLoop deleteFails script).map (fun evs => ChatEvent.createConversation :: evs)

/-- Fatal configuration failure: missing/empty required environment
variable (the spec's `ConfigError`; the sources realize it as
`sys.exit(1)` with a message in the AgentId variant and a raised
`ValueError` in the Foundry variant). -/
inductive ConfigError where
  | missingEnv (name : String)
deriving DecidableEq, Repr

/-- `get_env_or_fail` (AgentId, lines 23-29): Python `if not value`
fails on an unset variable and on one set to the empty string. -/
def get_env_or_fail (name : String) (value : Option PyStr) : Except ConfigError PyStr :=
  match value with
  | none => Except.error (ConfigError.missingEnv name)
  | some v => if v = [] then Except.error (ConfigError.missingEnv name) else Except.ok v

/-- The `PROJECT_ENDPOINT` check of the Foundry `get_project_client`
(lines 27-29): `if not endpoint: raise ValueError(...)`. -/
def foundryGetEndpoint (env : Option PyStr) : Except ConfigError PyStr :=
  match env with
  | none => Except.error (ConfigError.missingEnv "PROJECT_ENDPOINT")
  | some v => if v = [] then Except.error (ConfigError.missingEnv "PROJECT_ENDPOINT")
              else Except.ok v

/-- Model deployment of the Foundry create (line 47):
`os.environ.get("CHAT_MODEL_DEPLOYMENT", "gpt-4.1-mini")` — defaulted
only when the variable is UNSET; a variable set to the empty string
passes through as the empty string. -/
def foundryModelDeployment (env : Option PyStr) : PyStr := env.getD "gpt-4.1-mini".data

/-- A tool of an agent definition: a file-search tool bound to vector
stores (Foundry, line 98) or a delegated function tool (AgentId,
lines 42-85; its JSON-schema parameters are carried as the declared
property and required-field names). -/
inductive ToolSpec where
  | fileSearchTool (vector_store_ids : List PyStr)
  | functionTool (name description : String) (properties required : List String)
      (strict : Bool)
deriving DecidableEq, Repr

/-- `PromptAgentDefinition` as constructed by both variants: model,
instructions, tools. Neither script (nor this constructor) validates
any field. -/
structure PromptAgentDefinition where
  model : PyStr
  instructions : PyStr
  tools : List ToolSpec
deriving DecidableEq, Repr

/-- The instruction literal of the Foundry create (lines 92-96). -/
def foundryInstructions : PyStr :=
  ("You are a helpful product documentation assistant.\n" ++
   "You have access to product documentation via file search.\n" ++
   "When users ask questions, search the documents to provide accurate answers.\n" ++
   "Always cite the source when providing information from documents.\n" ++
   "If you cannot find relevant information, say so clearly.").data

/-- The agent definition built by the Foundry create (lines 90-100):
the given model deployment, the literal instructions, and one
file-search tool bound to the just-created vector store. -/
def foundryAgentDefinition (model vsId : PyStr) : PromptAgentDefinition :=
  { model := model
    instructions := foundryInstructions
    tools := [ToolSpec.fileSearchTool [vsId]] }

/-- `get_function_tools` (AgentId, lines 39-86). -/
def agentIdFunctionTools : List ToolSpec :=
  [ToolSpec.functionTool "list_files"
     "List files in the user's OneDrive. Can optionally filter by folder path."
     ["folder_path", "include_subfolders"] [] false,
   ToolSpec.functionTool "get_drive_info"
     "Get information about the user's OneDrive, including total storage, used storage, and remaining storage."
     [] [] false,
   ToolSpec.functionTool "search_files"
     "Search for files in the user's OneDrive by name or content."
     ["query"] ["query"] false]

/-- `AGENT_INSTRUCTIONS` (AgentId, lines 89-99). -/
def agentIdInstructions : PyStr :=
  ("You are an OneDrive assistant that helps users manage and explore their files.\n\n" ++
   "You can:\n" ++
   "- List files in any folder in the user's OneDrive\n" ++
   "- Search for files by name or content\n" ++
   "- Show drive storage information\n\n" ++
   "Always be helpful and provide clear, organized responses. When listing files, format them nicely.\n" ++
   "If an operation fails, explain what happened and suggest alternatives.\n\n" ++
   "Note: You access the user's OneDrive on their behalf using delegated permissions.").data

/-- The configuration phase of the Foundry create (lines 25-50 and
90-100): require `PROJECT_ENDPOINT`, default `CHAT_MODEL_DEPLOYMENT`,
and build the definition; NO field of the definition is validated. -/
def foundryCreateConfig (endpointEnv modelEnv : Option PyStr) (vsId : PyStr) :
    Except ConfigError PromptAgentDefinition := do
  let _endpoint ← foundryGetEndpoint endpointEnv
  let model := foundryModelDeployment modelEnv
  Except.ok (foundryAgentDefinition model vsId)

/-- The configuration phase of the AgentId create (lines 102-116):
`CHAT_MODEL_DEPLOYMENT` via `get_env_or_fail`, agent name defaulted,
then `get_project_client` requires `PROJECT_ENDPOINT`; the definition
is built without validating any field. -/
def agentIdCreateConfig (chatModelEnv nameEnv endpointEnv : Option PyStr) :
    Except ConfigError PromptAgentDefinition := do
  let model ← get_env_or_fail "CHAT_MODEL_DEPLOYMENT" chatModelEnv
  let _agent_name := agentIdAgentName nameEnv
  let _endpoint ← get_env_or_fail "PROJECT_ENDPOINT" endpointEnv
  Except.ok { model := model
              instructions := agentIdInstructions
              tools := agentIdFunctionTools }

/-- Outcome of `main` before any subcommand work: missing argument
prints usage and exits 1 (Foundry lines 230-236, AgentId 178-184);
an unknown command prints an error and exits 1 (Foundry 246-248,
AgentId 194-196); a recognized command is dispatched (exit 0 if the
subcommand completes). -/
inductive MainOutcome where
  | usageExit1
  | unknownExit1 (command : PyStr)
  | ran (command : PyStr)
deriving DecidableEq, Repr

/-- The dispatch of the Foundry `main` on the already-lowercased
command (lines 240-248). -/
def foundryDispatch (command : PyStr) : MainOutcome :=
  if command = "create".data then MainOutcome.ran command
  else if command = "delete".data then MainOutcome.ran command
  else if command = "chat".data then MainOutcome.ran command
  else MainOutcome.unknownExit1 command

/-- `main` of the Foundry variant (lines 229-248): usage exit on a
missing argument, otherwise `sys.argv[1].lower()` is dispatched. -/
def foundryMain (argv1 : Option PyStr) : MainOutcome :=
  match argv1 with
  | none => MainOutcome.usageExit1
  | some arg => foundryDispatch (pyLower arg)

/-- The dispatch of the AgentId `main` on the already-lowercased
command (lines 188-196). -/
def agentIdDispatch (command : PyStr) : MainOutcome :=
  if command = "create".data then MainOutcome.ran command
  else if command = "delete".data then MainOutcome.ran command
  else if command = "list".data then MainOutcome.ran command
  else MainOutcome.unknownExit1 command

/-- `main` of the AgentId variant (lines 177-196). -/
def agentIdMain (argv1 : Option PyStr) : MainOutcome :=
  match argv1 with
  | none => MainOutcome.usageExit1
  | some arg => agentIdDispatch (pyLower arg)

/-- Process exit code of a `main` outcome: `sys.exit(1)` on the usage
and unknown-command paths, implicit 0 when the dispatched subcommand
completes. -/
def mainExitCode : MainOutcome → Nat
  | MainOutcome.usageExit1 => 1
  | MainOutcome.unknownExit1 _ => 1
  | MainOutcome.ran _ => 0

/-! ## Theorems -/

theorem awaitReady_sound (script : List VSStatus) :
    ∀ n, (awaitReady script = some (PollResult.ready n) →
        1 ≤ n ∧ script[n-1]? = some VSStatus.completed ∧
          ∀ i, i < n - 1 → script[i]? = some VSStatus.inProgress)
      ∧ (awaitReady script = some (PollResult.provisioningError n) →
        1 ≤ n ∧ script[n-1]? = some VSStatus.failed ∧
          ∀ i, i < n - 1 → script[i]? = some VSStatus.inProgress) := by
  induction script with
  | nil =>
    intro n
    constructor <;> intro h <;> simp [awaitReady] at h
  | cons s rest ih =>
    intro n
    cases s with
    | completed =>
      constructor
      · intro h
        simp [awaitReady] at h
        subst h
        exact ⟨le_refl 1, by simp, fun i hi => absurd hi (by omega)⟩
      · intro h
        simp [awaitReady] at h
    | failed =>
      constructor
      · intro h
        simp [awaitReady] at h
      · intro h
        simp [awaitReady] at h
        subst h
        exact ⟨le_refl 1, by simp, fun i hi => absurd hi (by omega)⟩
    | inProgress =>
      constructor
      · intro h
        simp only [awaitReady] at h
        cases hr : awaitReady rest with
        | none => rw [hr] at h; simp at h
        | some pr =>
          cases pr with
          | ready m =>
            rw [hr] at h; simp at h
            obtain ⟨h1, h2, h3⟩ := (ih m).1 hr
            subst h
            refine ⟨by omega, ?_, ?_⟩
            · have : m + 1 - 1 = (m - 1) + 1 := by omega
              rw [this]; simpa using h2
            · intro i hi
              cases i with
              | zero => simp
              | succ j =>
                have : j < m - 1 := by omega
                simpa using h3 j this
          | provisioningError m =>
            rw [hr] at h; simp at h
      · intro h
        simp only [awaitReady] at h
        cases hr : awaitReady rest with
        | none => rw [hr] at h; simp at h
        | some pr =>
          cases pr with
          | ready m =>
            rw [hr] at h; simp at h
          | provisioningError m =>
            rw [hr] at h; simp at h
            obtain ⟨h1, h2, h3⟩ := (ih m).2 hr
            subst h
            refine ⟨by omega, ?_, ?_⟩
            · have : m + 1 - 1 = (m - 1) + 1 := by omega
              rw [this]; simpa using h2
            · intro i hi
              cases i with
              | zero => simp
              | succ j =>
                have : j < m - 1 := by omega
                simpa using h3 j this

/-- C1: the readiness wait queries the status once per poll until a
terminal status appears: on the scripted sequence
`[in_progress, in_progress, completed]` it returns after exactly 3
polls with status completed; on `[in_progress, failed]` it fails with
the provisioning error after exactly 2 polls; in general it returns
normally only when the status just observed is `completed`, raises only
when it is `failed`, and every earlier poll observed `in_progress`. -/
theorem claim1_await_ready_polls :
    awaitReady [VSStatus.inProgress, VSStatus.inProgress, VSStatus.completed]
        = some (PollResult.ready 3)
    ∧ awaitReady [VSStatus.inProgress, VSStatus.failed]
        = some (PollResult.provisioningError 2)
    ∧ (∀ script n, awaitReady script = some (PollResult.ready n) →
        1 ≤ n ∧ script[n-1]? = some VSStatus.completed ∧
          ∀ i, i < n - 1 → script[i]? = some VSStatus.inProgress)
    ∧ (∀ script n, awaitReady script = some (PollResult.provisioningError n) →
        1 ≤ n ∧ script[n-1]? = some VSStatus.failed ∧
          ∀ i, i < n - 1 → script[i]? = some VSStatus.inProgress) := by
  refine ⟨by decide, by decide, ?_, ?_⟩
  · intro script n h
    exact (awaitReady_sound script n).1 h
  · intro script n h
    exact (awaitReady_sound script n).2 h

/-- Witness for C1: the general conjuncts applied at concrete scripted
sequences. -/
theorem claim1_await_ready_polls_witness :
    ([VSStatus.inProgress, VSStatus.completed] : List VSStatus)[2-1]?
        = some VSStatus.completed
    ∧ ([VSStatus.failed] : List VSStatus)[1-1]? = some VSStatus.failed :=
  ⟨(claim1_await_ready_polls.2.2.1 [VSStatus.inProgress, VSStatus.completed] 2
      (by decide)).2.1,
   (claim1_await_ready_polls.2.2.2 [VSStatus.failed] 1 (by decide)).2.1⟩

theorem pollTrace_all_retrieve (script : List VSStatus) :
    ∀ e ∈ (pollTrace script).1, ∃ s, e = ProvEvent.retrieveStatus s := by
  induction script with
  | nil => simp [pollTrace]
  | cons s rest ih =>
    cases s with
    | completed => simp [pollTrace]
    | failed => simp [pollTrace]
    | inProgress =>
      rcases h : pollTrace rest with ⟨evs, r⟩
      simp only [pollTrace, h] at *
      intro e he
      simp at he
      rcases he with he | he
      · exact ⟨VSStatus.inProgress, he⟩
      · exact ih e he

theorem pollTrace_ok_ends_completed (script : List VSStatus) :
    (pollTrace script).2 = ChainResult.ok →
    ∃ pre, (pollTrace script).1 = pre ++ [ProvEvent.retrieveStatus VSStatus.completed] := by
  induction script with
  | nil => simp [pollTrace]
  | cons s rest ih =>
    cases s with
    | completed =>
      intro _
      exact ⟨[], by simp [pollTrace]⟩
    | failed => simp [pollTrace]
    | inProgress =>
      rcases h : pollTrace rest with ⟨evs, r⟩
      simp only [pollTrace, h]
      intro hr
      obtain ⟨pre, hpre⟩ := ih (by rw [h]; exact hr)
      rw [h] at hpre
      simp at hpre
      exact ⟨ProvEvent.retrieveStatus VSStatus.inProgress :: pre, by simp [hpre]⟩

/-- C5: in every execution of the provisioning chain, the
agent-creation call is never issued before the vector store is observed
`completed`: when the chain aborts with the provisioning error, no
`create_version` call occurs at all, and whenever a `create_version`
call occurs in the trace, it is the final event and is immediately
preceded by a status retrieval that observed `completed`. -/
theorem claim5_agent_after_completed (script : List VSStatus) :
    ((createChainEvents script).2 = ChainResult.provisioningError →
      ProvEvent.createAgent ∉ (createChainEvents script).1)
    ∧ (ProvEvent.createAgent ∈ (createChainEvents script).1 →
      ∃ pre, (createChainEvents script).1 =
        pre ++ [ProvEvent.retrieveStatus VSStatus.completed, ProvEvent.createAgent]) := by
  rcases hp : pollTrace script with ⟨pollEvs, r⟩
  have hall : ∀ e ∈ pollEvs, ∃ s, e = ProvEvent.retrieveStatus s := by
    intro e he
    exact pollTrace_all_retrieve script e (by rw [hp]; exact he)
  cases r with
  | ok =>
    have hc : createChainEvents script =
        (ProvEvent.uploadFile :: ProvEvent.createVectorStore ::
          (pollEvs ++ [ProvEvent.createAgent]), ChainResult.ok) := by
      simp [createChainEvents, hp]
    constructor
    · intro habs
      rw [hc] at habs
      simp at habs
    · intro _
      obtain ⟨pre, hpre⟩ := pollTrace_ok_ends_completed script (by rw [hp])
      rw [hp] at hpre
      simp at hpre
      refine ⟨ProvEvent.uploadFile :: ProvEvent.createVectorStore :: pre, ?_⟩
      rw [hc]
      simp [hpre]
  | provisioningError =>
    have hc : createChainEvents script =
        (ProvEvent.uploadFile :: ProvEvent.createVectorStore :: pollEvs,
         ChainResult.provisioningError) := by
      simp [createChainEvents, hp]
    constructor
    · intro _
      rw [hc]
      simp only [List.mem_cons]
      rintro (h | h | h)
      · exact absurd h (by simp)
      · exact absurd h (by simp)
      · obtain ⟨s, hs⟩ := hall _ h
        simp at hs
    · intro hmem
      rw [hc] at hmem
      simp only [List.mem_cons] at hmem
      rcases hmem with h | h | h
      · exact absurd h (by simp)
      · exact absurd h (by simp)
      · obtain ⟨s, hs⟩ := hall _ h
        simp at hs
  | hang =>
    have hc : createChainEvents script =
        (ProvEvent.uploadFile :: ProvEvent.createVectorStore :: pollEvs,
         ChainResult.hang) := by
      simp [createChainEvents, hp]
    constructor
    · intro habs
      rw [hc] at habs
      simp at habs
    · intro hmem
      rw [hc] at hmem
      simp only [List.mem_cons] at hmem
      rcases hmem with h | h | h
      · exact absurd h (by simp)
      · exact absurd h (by simp)
      · obtain ⟨s, hs⟩ := hall _ h
        simp at hs

/-- Witness for C5: the two implications applied at the concrete
scripted sequences `[failed]` and `[in_progress, completed]`. -/
theorem claim5_agent_after_completed_witness :
    ProvEvent.createAgent ∉ (createChainEvents [VSStatus.failed]).1
    ∧ ∃ pre, (createChainEvents [VSStatus.inProgress, VSStatus.completed]).1 =
        pre ++ [ProvEvent.retrieveStatus VSStatus.completed, ProvEvent.createAgent] :=
  ⟨(claim5_agent_after_completed [VSStatus.failed]).1 (by decide),
   (claim5_agent_after_completed [VSStatus.inProgress, VSStatus.completed]).2 (by decide)⟩

/-- C3: teardown attempts each of the three deletions independently:
a deletion is attempted exactly when its identifier is present,
regardless of which other identifiers are present and which remote
deletions fail; a failing deletion is downgraded to a warning event
(the function returns a plain event list — no exception escapes); and
with only the vector-store id set the run produces exactly the one
vector-store deletion. -/
theorem claim3_teardown_independent (a v f : Option PyStr) (fails : DeleteFailures) :
    ((∃ e ∈ deleteAgentAndResources a v f fails, attemptsAgent e = true) ↔ a.isSome = true)
    ∧ ((∃ e ∈ deleteAgentAndResources a v f fails, attemptsVectorStore e = true) ↔
        v.isSome = true)
    ∧ ((∃ e ∈ deleteAgentAndResources a v f fails, attemptsFile e = true) ↔ f.isSome = true)
    ∧ (∀ vid, v = some vid →
        (if fails.vectorStore then TeardownEvent.warnVectorStore
         else TeardownEvent.deletedVectorStore vid) ∈ deleteAgentAndResources a v f fails)
    ∧ (∀ aid, a = some aid →
        (if fails.agent then TeardownEvent.warnAgent
         else TeardownEvent.deletedAgent (foundryDeleteTarget aid).1 (foundryDeleteTarget aid).2)
          ∈ deleteAgentAndResources a v f fails)
    ∧ (∀ fid, f = some fid →
        (if fails.file then TeardownEvent.warnFile
         else TeardownEvent.deletedFile fid) ∈ deleteAgentAndResources a v f fails)
    ∧ (∀ vid, deleteAgentAndResources none (some vid) none fails =
        [if fails.vectorStore then TeardownEvent.warnVectorStore
         else TeardownEvent.deletedVectorStore vid]) := by
  obtain ⟨fa, fv, ff⟩ := fails
  cases a <;> cases v <;> cases f <;> cases fa <;> cases fv <;> cases ff <;>
    simp [deleteAgentAndResources, tryDeleteStep, remoteCall, attemptsAgent,
      attemptsVectorStore, attemptsFile, foundryDeleteTarget]

/-- Witness for C3: teardown with agent id and vector-store id present,
the agent deletion failing remotely, still attempts (and here performs)
the vector-store deletion. -/
theorem claim3_teardown_independent_witness :
    (if (DeleteFailures.mk true false false).vectorStore then TeardownEvent.warnVectorStore
     else TeardownEvent.deletedVectorStore ("vs_1".data))
      ∈ deleteAgentAndResources (some ("A:1".data)) (some ("vs_1".data)) none
          (DeleteFailures.mk true false false) :=
  (claim3_teardown_independent (some ("A:1".data)) (some ("vs_1".data)) none
      (DeleteFailures.mk true false false)).2.2.2.1 ("vs_1".data) rfl

theorem takeWhile_append_cons (p : Char → Bool) (a rest : List Char) (c : Char)
    (ha : ∀ x ∈ a, p x) (hc : ¬ p c) : (a ++ c :: rest).takeWhile p = a := by
  induction a with
  | nil => simp [List.takeWhile_cons, hc]
  | cons x xs ih =>
    simp only [List.cons_append, List.takeWhile_cons]
    rw [if_pos (ha x (by simp))]
    simp [ih (fun y hy => ha y (by simp [hy]))]

theorem dropWhile_append_cons (p : Char → Bool) (a rest : List Char) (c : Char)
    (ha : ∀ x ∈ a, p x) (hc : ¬ p c) : (a ++ c :: rest).dropWhile p = c :: rest := by
  induction a with
  | nil => simp [List.dropWhile_cons, hc]
  | cons x xs ih =>
    simp only [List.cons_append, List.dropWhile_cons]
    rw [if_pos (ha x (by simp))]
    exact ih (fun y hy => ha y (by simp [hy]))

/-- C4 counterexample: in the AgentId variant, deleting with
`AGENT_ID = "MyAgent"` (no colon) and `AGENT_NAME` unset targets the
fallback name "OneDrive-Agent" with version "1" — parsing the id
"MyAgent" does NOT yield name "MyAgent" there. -/
theorem claim4_counterexample :
    agentIdDeleteTarget ("MyAgent".data) (agentIdAgentName none)
        = ("OneDrive-Agent".data, "1".data)
    ∧ agentIdDeleteTarget ("MyAgent".data) (agentIdAgentName none)
        ≠ ("MyAgent".data, "1".data) := by
  constructor
  · decide
  · decide

/-- C4 (amended): at delete-time an agent id containing a colon is
split on its last colon into name and version in both variants
("MyAgent:3" → name "MyAgent", version "3"); an id without a colon
defaults the version to "1", with the Foundry variant using the id
itself as the name ("MyAgent" → name "MyAgent") while the AgentId
variant falls back to the `AGENT_NAME` environment value (default
"OneDrive-Agent") as the name. -/
theorem claim4_delete_parse :
    foundryDeleteTarget ("MyAgent:3".data) = ("MyAgent".data, "3".data)
    ∧ foundryDeleteTarget ("MyAgent".data) = ("MyAgent".data, "1".data)
    ∧ (∀ name, agentIdDeleteTarget ("MyAgent:3".data) name = ("MyAgent".data, "3".data))
    ∧ (∀ aid name, ':' ∈ aid → agentIdDeleteTarget aid name = foundryDeleteTarget aid)
    ∧ (∀ aid name, ':' ∉ aid → agentIdDeleteTarget aid name = (name, "1".data))
    ∧ agentIdAgentName none = "OneDrive-Agent".data := by
  refine ⟨by decide, by decide, fun name => ?_, fun aid name h => ?_, fun aid name h => ?_,
    by decide⟩
  · simp [agentIdDeleteTarget, pyRsplitColon1]
  · simp [agentIdDeleteTarget, foundryDeleteTarget, h]
  · simp [agentIdDeleteTarget, h]

/-- Witness for C4 (amended): the colon and no-colon cases of the
AgentId delete applied at concrete inputs. -/
theorem claim4_delete_parse_witness :
    agentIdDeleteTarget ("A:2".data) ("N".data) = foundryDeleteTarget ("A:2".data)
    ∧ agentIdDeleteTarget ("MyAgentX".data) ("N".data) = ("N".data, "1".data) :=
  ⟨claim4_delete_parse.2.2.2.1 ("A:2".data) ("N".data) (by decide),
   claim4_delete_parse.2.2.2.2.1 ("MyAgentX".data) ("N".data) (by decide)⟩

/-- C9: chat and delete parse the same agent id differently — chat
takes the text before the FIRST colon, delete the text before the LAST
colon: for `"A:B:3"` chat addresses agent name "A" while delete
addresses "A:B"; in general, for every id of shape `a ++ ":" ++ b ++
":" ++ v` (two or more colons, `a` before the first colon and `v`
after the last), chat yields `a`, delete yields `a ++ ":" ++ b`, and
the two names always differ. -/
theorem claim9_chat_delete_divergence :
    chatAgentName ("A:B:3".data) = "A".data
    ∧ foundryDeleteTarget ("A:B:3".data) = ("A:B".data, "3".data)
    ∧ (∀ a b v : PyStr, ':' ∉ a → ':' ∉ v →
        chatAgentName (a ++ ':' :: b ++ ':' :: v) = a
        ∧ (foundryDeleteTarget (a ++ ':' :: b ++ ':' :: v)).1 = a ++ ':' :: b
        ∧ chatAgentName (a ++ ':' :: b ++ ':' :: v) ≠
            (foundryDeleteTarget (a ++ ':' :: b ++ ':' :: v)).1) := by
  refine ⟨by decide, by decide, fun a b v ha hv => ?_⟩
  have hmem : ':' ∈ a ++ ':' :: b ++ ':' :: v := by simp
  have haB : ∀ x ∈ a, (x != ':') = true := by
    intro x hx
    simp only [bne_iff_ne, ne_eq]
    intro hEq
    exact ha (hEq ▸ hx)
  have hvB : ∀ x ∈ v.reverse, (x != ':') = true := by
    intro x hx
    simp only [bne_iff_ne, ne_eq]
    intro hEq
    exact hv (hEq ▸ (List.mem_reverse.mp hx))
  have hassoc : a ++ ':' :: b ++ ':' :: v = a ++ ':' :: (b ++ ':' :: v) := by
    simp
  have hchat : chatAgentName (a ++ ':' :: b ++ ':' :: v) = a := by
    rw [chatAgentName, if_pos hmem, hassoc]
    exact takeWhile_append_cons _ a _ ':' haB (by simp)
  have hdel : (foundryDeleteTarget (a ++ ':' :: b ++ ':' :: v)).1 = a ++ ':' :: b := by
    rw [foundryDeleteTarget, if_pos hmem]
    show (((a ++ ':' :: b ++ ':' :: v).reverse.dropWhile (· != ':')).tail).reverse
        = a ++ ':' :: b
    have hrev : (a ++ ':' :: b ++ ':' :: v).reverse
        = v.reverse ++ ':' :: (b.reverse ++ ':' :: a.reverse) := by
      simp
    rw [hrev, dropWhile_append_cons _ v.reverse _ ':' hvB (by simp)]
    simp
  refine ⟨hchat, hdel, ?_⟩
  rw [hchat, hdel]
  intro h
  have := congrArg List.length h
  simp at this

/-- Witness for C9: the general shape applied at `a = "A"`, `b = "B"`,
`v = "3"`, recovering the divergence on the concrete id "A:B:3". -/
theorem claim9_chat_delete_divergence_witness :
    chatAgentName ("A".data ++ ':' :: "B".data ++ ':' :: "3".data) = "A".data
    ∧ chatAgentName ("A".data ++ ':' :: "B".data ++ ':' :: "3".data) ≠
        (foundryDeleteTarget ("A".data ++ ':' :: "B".data ++ ':' :: "3".data)).1 :=
  ⟨(claim9_chat_delete_divergence.2.2 ("A".data) ("B".data) ("3".data)
      (by decide) (by decide)).1,
   (claim9_chat_delete_divergence.2.2 ("A".data) ("B".data) ("3".data)
      (by decide) (by decide)).2.2⟩

theorem chatLoop_no_create (f : Bool) (script : List PyStr) :
    ∀ evs, chatLoop f script = some evs → ChatEvent.createConversation ∉ evs := by
  induction script with
  | nil =>
    intro evs h
    simp [chatLoop] at h
  | cons line rest ih =>
    intro evs h
    simp only [chatLoop] at h
    by_cases h1 : pyLower (pyStrip line) ∈ exitTokens
    · rw [if_pos h1] at h
      simp at h
      subst h
      simp
    · rw [if_neg h1] at h
      by_cases h2 : pyStrip line = []
      · rw [if_pos h2] at h
        exact ih evs h
      · rw [if_neg h2] at h
        rcases hr : chatLoop f rest with _ | evs'
        · rw [hr] at h; simp at h
        · rw [hr] at h
          simp at h
          subst h
          simp only [List.mem_cons]
          rintro (hc | hc | hc)
          · exact absurd hc (by simp)
          · exact absurd hc (by simp)
          · exact ih evs' hr hc

theorem chatLoop_delete_fails_irrelevant (f g : Bool) (script : List PyStr) :
    chatLoop f script = chatLoop g script := by
  induction script with
  | nil => rfl
  | cons line rest ih => simp only [chatLoop, ih]

/-- C6: a chat session on the scripted inputs `["hello", "exit"]`
creates exactly one conversation (at session start), appends exactly
one user item, issues exactly one response request, then attempts the
conversation deletion and terminates; the remote delete outcome never
changes the session's behaviour (errors suppressed); a stripped-blank
input line causes no remote round-trip; any input whose stripped,
lowercased form is one of quit/exit/q ends the session; and every
terminating session creates exactly one conversation, as its first
event. -/
theorem claim6_chat_session (f : Bool) :
    chatWithAgent f ["hello".data, "exit".data]
        = some [ChatEvent.createConversation, ChatEvent.appendUserItem ("hello".data),
                ChatEvent.requestResponse, ChatEvent.deleteConversationAttempt]
    ∧ (∀ g script, chatWithAgent f script = chatWithAgent g script)
    ∧ (∀ line rest, pyStrip line = [] → chatLoop f (line :: rest) = chatLoop f rest)
    ∧ (∀ line rest, pyLower (pyStrip line) ∈ exitTokens →
        chatLoop f (line :: rest) = some [ChatEvent.deleteConversationAttempt])
    ∧ chatWithAgent f ["hello".data, "QUIT".data]
        = chatWithAgent f ["hello".data, "quit".data]
    ∧ (∀ script evs, chatWithAgent f script = some evs →
        evs.count ChatEvent.createConversation = 1 ∧
          evs.head? = some ChatEvent.createConversation) := by
  refine ⟨by cases f <;> decide, ?_, ?_, ?_, by cases f <;> decide, ?_⟩
  · intro g script
    rw [chatWithAgent, chatWithAgent, chatLoop_delete_fails_irrelevant f g script]
  · intro line rest h
    have hnx : pyLower (pyStrip line) ∉ exitTokens := by
      rw [h]
      decide
    simp only [chatLoop]
    rw [if_neg hnx, if_pos h]
  · intro line rest h
    simp only [chatLoop]
    rw [if_pos h]
  · intro script evs h
    rw [chatWithAgent] at h
    rcases hr : chatLoop f script with _ | evs'
    · rw [hr] at h; simp at h
    · rw [hr] at h
      simp at h
      subst h
      have hno := chatLoop_no_create f script evs' hr
      constructor
      · simp [List.count_cons, List.count_eq_zero_of_not_mem hno]
      · simp

/-- Witness for C6: the blank-line, exit-token and single-conversation
conjuncts applied at concrete inputs. -/
theorem claim6_chat_session_witness :
    chatLoop true (" ".data :: ["exit".data]) = chatLoop true ["exit".data]
    ∧ chatLoop true ["QUIT".data] = some [ChatEvent.deleteConversationAttempt]
    ∧ (List.count ChatEvent.createConversation
        [ChatEvent.createConversation, ChatEvent.deleteConversationAttempt] = 1) :=
  ⟨(claim6_chat_session true).2.2.1 (" ".data) ["exit".data] (by decide),
   (claim6_chat_session true).2.2.2.1 ("QUIT".data) [] (by decide),
   ((claim6_chat_session true).2.2.2.2.2 ["exit".data]
      [ChatEvent.createConversation, ChatEvent.deleteConversationAttempt] (by decide)).1⟩

/-- C7 counterexample: in the Foundry variant, with `PROJECT_ENDPOINT`
set and `CHAT_MODEL_DEPLOYMENT` set to the empty string, the required
definition field `model` ends up empty and yet configuration succeeds —
no `ConfigError`, no termination: the definition fields are never
validated for non-emptiness. -/
theorem claim7_counterexample :
    foundryCreateConfig (some ("https://e".data)) (some []) ("vs_1".data)
        = Except.ok (foundryAgentDefinition [] ("vs_1".data))
    ∧ (foundryAgentDefinition [] ("vs_1".data)).model = [] :=
  ⟨rfl, rfl⟩

/-- C7 (amended): a missing or empty `PROJECT_ENDPOINT` is fatal with a
message in both variants, and in the AgentId variant a missing or empty
`CHAT_MODEL_DEPLOYMENT` is fatal; in the Foundry variant
`CHAT_MODEL_DEPLOYMENT` is defaulted to "gpt-4.1-mini" when unset, and
definition fields are not validated for non-emptiness. -/
theorem claim7_config_errors :
    (∀ name v, (∃ err, get_env_or_fail name v = Except.error err) ↔
        (v = none ∨ v = some []))
    ∧ (∀ v, (∃ err, foundryGetEndpoint v = Except.error err) ↔ (v = none ∨ v = some []))
    ∧ foundryModelDeployment none = "gpt-4.1-mini".data
    ∧ (∀ nameEnv epEnv, agentIdCreateConfig none nameEnv epEnv
        = Except.error (ConfigError.missingEnv "CHAT_MODEL_DEPLOYMENT"))
    ∧ (∀ nameEnv epEnv, agentIdCreateConfig (some []) nameEnv epEnv
        = Except.error (ConfigError.missingEnv "CHAT_MODEL_DEPLOYMENT"))
    ∧ (∀ chat nameEnv, chat ≠ [] →
        agentIdCreateConfig (some chat) nameEnv none
          = Except.error (ConfigError.missingEnv "PROJECT_ENDPOINT"))
    ∧ (∀ modelEnv vsId, foundryCreateConfig none modelEnv vsId
        = Except.error (ConfigError.missingEnv "PROJECT_ENDPOINT")) := by
  refine ⟨?_, ?_, rfl, ?_, ?_, ?_, ?_⟩
  · intro name v
    cases v with
    | none => simp [get_env_or_fail]
    | some s =>
      by_cases hs : s = []
      · subst hs
        simp [get_env_or_fail]
      · simp [get_env_or_fail, hs]
  · intro v
    cases v with
    | none => simp [foundryGetEndpoint]
    | some s =>
      by_cases hs : s = []
      · subst hs
        simp [foundryGetEndpoint]
      · simp [foundryGetEndpoint, hs]
  · intro nameEnv epEnv
    rfl
  · intro nameEnv epEnv
    rfl
  · intro chat nameEnv h
    simp [agentIdCreateConfig, get_env_or_fail, h]
    rfl
  · intro modelEnv vsId
    rfl

/-- Witness for C7 (amended): the hypotheses discharged at concrete
environments. -/
theorem claim7_config_errors_witness :
    agentIdCreateConfig (some ("gpt".data)) none none
        = Except.error (ConfigError.missingEnv "PROJECT_ENDPOINT")
    ∧ ((∃ err, get_env_or_fail "PROJECT_ENDPOINT" none = Except.error err) ↔
        ((none : Option PyStr) = none ∨ (none : Option PyStr) = some [])) :=
  ⟨claim7_config_errors.2.2.2.2.2.1 ("gpt".data) none (by decide),
   claim7_config_errors.1 "PROJECT_ENDPOINT" none⟩

/-- C2: for every successful run of the Foundry create (the remote
identifiers and poll outcomes being arbitrary), the persisted State
Store holds all four keys `AGENT_ID`, `AGENT_NAME`, `VECTORSTORE_ID`,
`FILE_ID` mapped to that run's identifiers; the AgentId variant's
create writes its `AGENT_ID` and `AGENT_NAME` (the only identifiers it
provisions) via `azd env set`. -/
theorem claim2_state_store_writes (fileId vsId agentId : PyStr) (script : List VSStatus) :
    (∀ store,
      foundryStateAfterCreate (foundryCreateRun fileId vsId agentId script) = some store →
        store.lookup "AGENT_ID" = some agentId
        ∧ store.lookup "AGENT_NAME" = some foundryAgentName
        ∧ store.lookup "VECTORSTORE_ID" = some vsId
        ∧ store.lookup "FILE_ID" = some fileId)
    ∧ (∀ aid aname, (agentIdCreateWrites aid aname).lookup "AGENT_ID" = some aid
        ∧ (agentIdCreateWrites aid aname).lookup "AGENT_NAME" = some aname) := by
  constructor
  · intro store h
    rw [foundryCreateRun] at h
    rcases ha : awaitReady script with _ | pr
    · rw [ha] at h
      simp [foundryStateAfterCreate] at h
    · cases pr with
      | ready n =>
        rw [ha] at h
        simp only [foundryStateAfterCreate, azdPersistHook, Option.some.injEq] at h
        subst h
        refine ⟨?_, ?_, ?_, ?_⟩ <;> simp [List.lookup]
      | provisioningError n =>
        rw [ha] at h
        simp [foundryStateAfterCreate] at h
  · intro aid aname
    constructor <;> simp [agentIdCreateWrites, List.lookup]

/-- Witness for C2: a successful run with concrete identifiers and the
scripted poll `[in_progress, completed]` has all four keys in the
store. -/
theorem claim2_state_store_writes_witness :
    (azdPersistHook ("A:1".data) foundryAgentName ("vs_9".data) ("f_9".data)).lookup
        "AGENT_ID" = some ("A:1".data) :=
  ((claim2_state_store_writes ("f_9".data) ("vs_9".data) ("A:1".data)
      [VSStatus.inProgress, VSStatus.completed]).1
    (azdPersistHook ("A:1".data) foundryAgentName ("vs_9".data) ("f_9".data))
    (by decide)).1

/-- C8: a missing positional command exits with code 1 after the usage
message, an unrecognized command exits with code 1 after the error
message, and a recognized command that completes exits with the
implicit success code 0 — in both variants. -/
theorem claim8_exit_codes :
    mainExitCode (foundryMain none) = 1
    ∧ mainExitCode (agentIdMain none) = 1
    ∧ (∀ arg, pyLower arg ∈ ["create".data, "delete".data, "chat".data] →
        foundryMain (some arg) = MainOutcome.ran (pyLower arg)
        ∧ mainExitCode (foundryMain (some arg)) = 0)
    ∧ (∀ arg, pyLower arg ∉ ["create".data, "delete".data, "chat".data] →
        foundryMain (some arg) = MainOutcome.unknownExit1 (pyLower arg)
        ∧ mainExitCode (foundryMain (some arg)) = 1)
    ∧ (∀ arg, pyLower arg ∈ ["create".data, "delete".data, "list".data] →
        agentIdMain (some arg) = MainOutcome.ran (pyLower arg)
        ∧ mainExitCode (agentIdMain (some arg)) = 0)
    ∧ (∀ arg, pyLower arg ∉ ["create".data, "delete".data, "list".data] →
        agentIdMain (some arg) = MainOutcome.unknownExit1 (pyLower arg)
        ∧ mainExitCode (agentIdMain (some arg)) = 1) := by
  refine ⟨rfl, rfl, ?_, ?_, ?_, ?_⟩
  · intro arg h
    simp only [List.mem_cons, List.mem_singleton, List.not_mem_nil, or_false] at h
    rcases h with h | h | h <;>
      simp [foundryMain, foundryDispatch, h, mainExitCode]
  · intro arg h
    simp only [List.mem_cons, List.mem_singleton, List.not_mem_nil, or_false,
      not_or] at h
    obtain ⟨h1, h2, h3⟩ := h
    simp [foundryMain, foundryDispatch, h1, h2, h3, mainExitCode]
  · intro arg h
    simp only [List.mem_cons, List.mem_singleton, List.not_mem_nil, or_false] at h
    rcases h with h | h | h <;>
      simp [agentIdMain, agentIdDispatch, h, mainExitCode]
  · intro arg h
    simp only [List.mem_cons, List.mem_singleton, List.not_mem_nil, or_false,
      not_or] at h
    obtain ⟨h1, h2, h3⟩ := h
    simp [agentIdMain, agentIdDispatch, h1, h2, h3, mainExitCode]

/-- Witness for C8: a recognized and an unrecognized command in each
variant. -/
theorem claim8_exit_codes_witness :
    mainExitCode (foundryMain (some ("create".data))) = 0
    ∧ mainExitCode (foundryMain (some ("frobnicate".data))) = 1
    ∧ mainExitCode (agentIdMain (some ("list".data))) = 0
    ∧ mainExitCode (agentIdMain (some ("chat".data))) = 1 :=
  ⟨(claim8_exit_codes.2.2.1 ("create".data) (by decide)).2,
   (claim8_exit_codes.2.2.2.1 ("frobnicate".data) (by decide)).2,
   (claim8_exit_codes.2.2.2.2.1 ("list".data) (by decide)).2,
   (claim8_exit_codes.2.2.2.2.2 ("chat".data) (by decide)).2⟩

/-- C10: the command argument is matched case-insensitively: `main`
compares only the lowercased `sys.argv[1]`, so two arguments with the
same lowercase form behave identically, and "CREATE", "Delete",
"Chat", "LIST" are accepted exactly as their lowercase forms are, in
both variants. -/
theorem claim10_command_lowercased :
    (∀ a b : PyStr, pyLower a = pyLower b →
        foundryMain (some a) = foundryMain (some b)
        ∧ agentIdMain (some a) = agentIdMain (some b))
    ∧ foundryMain (some ("CREATE".data)) = foundryMain (some ("create".data))
    ∧ foundryMain (some ("Delete".data)) = foundryMain (some ("delete".data))
    ∧ foundryMain (some ("Chat".data)) = foundryMain (some ("chat".data))
    ∧ agentIdMain (some ("CREATE".data)) = agentIdMain (some ("create".data))
    ∧ agentIdMain (some ("Delete".data)) = agentIdMain (some ("delete".data))
    ∧ agentIdMain (some ("LIST".data)) = agentIdMain (some ("list".data))
    ∧ foundryMain (some ("CREATE".data)) = MainOutcome.ran ("create".data)
    ∧ agentIdMain (some ("LIST".data)) = MainOutcome.ran ("list".data) := by
  refine ⟨?_, by decide, by decide, by decide, by decide, by decide, by decide,
    by decide, by decide⟩
  intro a b h
  constructor
  · simp only [foundryMain, h]
  · simp only [agentIdMain, h]

/-- Witness for C10: the general conjunct applied at "CREATE" and
"create". -/
theorem claim10_command_lowercased_witness :
    foundryMain (some ("CREATE".data)) = foundryMain (some ("create".data))
    ∧ agentIdMain (some ("CREATE".data)) = agentIdMain (some ("create".data)) :=
  claim10_command_lowercased.1 ("CREATE".data) ("create".data) (by decide)

end MAFAgents
